import Mathlib

/-!
Verification development for the `vite-plugin-qwik-logger` Vite plugin
(`src/routes/index.tsx`, `qwikLogger`).

The plugin is a record of hooks closing over mutable state
(`isDev`, `pluginNames`, `viteMode`, `viteCommand`, `viteConfigRoot`) and the
immutable `buildTime` captured at construction.  We embed the closure state as
an explicit `PluginState` record and each hook as a function from the state
(and the hook's arguments) to the pair of the state after the hook body ran
and the hook's visible result.  Wall-clock reads (`new Date().toISOString()`)
are passed in as explicit `timestamp` arguments; console output is returned
as a list of emitted lines.
-/

namespace QwikLogger

/-- The closure state of `qwikLogger()`: the five mutable `let` bindings and
the `const buildTime` captured at plugin construction. -/
structure PluginState where
  isDev : Bool
  pluginNames : List String
  viteMode : String
  viteCommand : String
  viteConfigRoot : String
  buildTime : String
deriving Repr, DecidableEq

/-- `const virtualModuleId = "virtual:vite-info"`. -/
def virtualModuleId : String := "virtual:vite-info"

/-- `const resolvedVirtualModuleId = "\0" + virtualModuleId`. -/
def resolvedVirtualModuleId : String := "\x00" ++ virtualModuleId

/-- `const pluginName = "vite-plugin-qwik-logger"`. -/
def pluginName : String := "vite-plugin-qwik-logger"

/-- The state right after `qwikLogger()` runs: `isDev = false`, empty plugin
names and empty descriptor strings; `buildTime` is the ISO string produced by
`new Date().toISOString()` at construction, taken here as a parameter. -/
def initialState (bt : String) : PluginState :=
  { isDev := false
    pluginNames := []
    viteMode := ""
    viteCommand := ""
    viteConfigRoot := ""
    buildTime := bt }

/-- The `config(_, { command })` hook: `isDev = command === "serve"`. -/
def config (st : PluginState) (command : String) : PluginState :=
  { st with isDev := command == "serve" }

/-- A plugin entry of the resolved Vite config: only its `name` is read. -/
structure PluginDescr where
  name : String

/-- The fields of the resolved Vite config that `configResolved` reads. -/
structure ResolvedConfig where
  plugins : List PluginDescr
  mode : String
  command : String
  root : String

/-- The `configResolved(config)` hook: copies `plugins.map(p => p.name)`,
`mode`, `command` and `root` into the closure state. -/
def configResolved (st : PluginState) (cfg : ResolvedConfig) : PluginState :=
  { st with
    pluginNames := cfg.plugins.map (fun p => p.name)
    viteMode := cfg.mode
    viteCommand := cfg.command
    viteConfigRoot := cfg.root }

/-- The `resolveId(source)` hook body: returns `resolvedVirtualModuleId` for
the exact literal `virtualModuleId` and `null` otherwise.  The body performs
no assignment, so the state component of the result is the input state. -/
def resolveId (st : PluginState) (source : String) : PluginState × Option String :=
  (st, if source = virtualModuleId then some resolvedVirtualModuleId else none)

/-- `pluginNames.map(p => "'" + p + "'").join(",")` from the `load` hook. -/
def pluginsString (names : List String) : String :=
  String.intercalate "," (names.map (fun p => "\x27" ++ p ++ "\x27"))

/-- The template literal the `load` hook returns for the virtual module,
with the source file's exact whitespace (tab-indented lines, the trailing
line of eight spaces and two tabs before the closing backtick). -/
def genSource (st : PluginState) : String :=
  "\n\t\t\t\t\texport const getTimestamp = () => new Date().toISOString();\n\t\t\t\t\texport const buildTime = \""
    ++ st.buildTime
    ++ "\";\n\t\t\t\t\texport const pluginNames = ["
    ++ pluginsString st.pluginNames
    ++ "];\n\t\t\t\t\texport const viteMode = \""
    ++ st.viteMode
    ++ "\";\n\t\t\t\t\texport const viteCommand = \""
    ++ st.viteCommand
    ++ "\";\n\t\t\t\t\texport const viteConfigRoot = \""
    ++ st.viteConfigRoot
    ++ "\";\n        \t\t"

/-- The `load(id)` hook body: generated source for `resolvedVirtualModuleId`,
`null` otherwise; no assignment is performed. -/
def load (st : PluginState) (id : String) : PluginState × Option String :=
  (st, if id = resolvedVirtualModuleId then some (genSource st) else none)

/-- The test `/\.(js|ts)$/.test(id)` of the `transform` hook: the id ends
with a literal dot followed by `js` or `ts` (case-sensitive). -/
def isJsOrTs (id : String) : Bool :=
  ".js".data.isSuffixOf id.data || ".ts".data.isSuffixOf id.data

/-- The text `transform` appends: `` `\n// Last updated: ${timestamp}` ``. -/
def markerLine (ts : String) : String :=
  "\n// Last updated: " ++ ts

/-- The `transform(code, id)` hook body: `null` unless `isDev` and the id is
a `.js`/`.ts` file, in which case the original code with one appended marker
line; `timestamp` stands for the `new Date().toISOString()` read. -/
def transform (st : PluginState) (code id timestamp : String) :
    PluginState × Option String :=
  (st,
    if !st.isDev then none
    else if isJsOrTs id then some (code ++ markerLine timestamp)
    else none)

/-- The `watchChange(id, change)` hook body: no output unless `isDev`, else
one `console.log` line; the result lists the emitted lines. -/
def watchChange (st : PluginState) (id event timestamp : String) :
    PluginState × List String :=
  (st,
    if !st.isDev then []
    else ["[" ++ timestamp ++ "] File " ++ event ++ ": " ++ id])

/-- The `handleHotUpdate({ file })` hook body: unconditionally logs one line
with the changed file path.  It closes over the same state but reads none of
it — in particular no `isDev` guard. -/
def handleHotUpdate (st : PluginState) (file : String) :
    PluginState × List String :=
  (st, ["[HMR] Reloading due to file change: " ++ file])

/-- The `buildStart()` hook body: one log line. -/
def buildStart (st : PluginState) : PluginState × List String :=
  (st, ["\n[" ++ pluginName ++ "] Building..."])

/-- The `buildEnd()` hook body: one log line. -/
def buildEnd (st : PluginState) : PluginState × List String :=
  (st, ["\n[" ++ pluginName ++ "] Done building"])

/-- The `generateBundle(_, bundle)` hook body: a header line plus one line
per bundle file name. -/
def generateBundle (st : PluginState) (bundle : List String) :
    PluginState × List String :=
  (st, ("\n[" ++ pluginName ++ "] Output bundle contains:")
        :: bundle.map (fun fileName => " - " ++ fileName))

/-- The `closeBundle()` hook body: one log line. -/
def closeBundle (st : PluginState) : PluginState × List String :=
  (st, ["\n[" ++ pluginName ++ "] Build is complete. Goodbye!\n"])

/-- One invocation of a plugin hook by the host, with the arguments the host
supplies (wall-clock reads included as explicit timestamps). -/
inductive HookCall where
  | config (command : String)
  | configResolved (cfg : ResolvedConfig)
  | resolveId (source : String)
  | load (id : String)
  | transform (code id timestamp : String)
  | watchChange (id event timestamp : String)
  | handleHotUpdate (file : String)
  | buildStart
  | buildEnd
  | generateBundle (bundle : List String)
  | closeBundle

/-- State after the host performs one hook invocation. -/
def applyHook (st : PluginState) : HookCall → PluginState
  | .config cmd => config st cmd
  | .configResolved cfg => configResolved st cfg
  | .resolveId source => (resolveId st source).1
  | .load id => (load st id).1
  | .transform code id ts => (transform st code id ts).1
  | .watchChange id event ts => (watchChange st id event ts).1
  | .handleHotUpdate file => (handleHotUpdate st file).1
  | .buildStart => (buildStart st).1
  | .buildEnd => (buildEnd st).1
  | .generateBundle bundle => (generateBundle st bundle).1
  | .closeBundle => (closeBundle st).1

/-- State after a sequence of hook invocations. -/
def applyHooks (st : PluginState) (hs : List HookCall) : PluginState :=
  hs.foldl applyHook st

/-- Whether a hook invocation is a `configResolved` call. -/
def isConfigResolvedCall : HookCall → Bool
  | .configResolved _ => true
  | _ => false

/-- `ContainsSub s pat` states that `pat` occurs as a contiguous substring
of `s`. -/
def ContainsSub (s pat : String) : Prop :=
  ∃ l r : String, s = l ++ pat ++ r

/-- The generated source contains the `buildTime` export line with the
state's `buildTime` value spliced in. -/
theorem gen_contains_buildTime (st : PluginState) :
    ContainsSub (genSource st)
      ("export const buildTime = \"" ++ st.buildTime ++ "\";") := by
  refine ⟨"\n\t\t\t\t\texport const getTimestamp = () => new Date().toISOString();\n\t\t\t\t\t",
    "\n\t\t\t\t\texport const pluginNames = ["
      ++ pluginsString st.pluginNames
      ++ "];\n\t\t\t\t\texport const viteMode = \""
      ++ st.viteMode
      ++ "\";\n\t\t\t\t\texport const viteCommand = \""
      ++ st.viteCommand
      ++ "\";\n\t\t\t\t\texport const viteConfigRoot = \""
      ++ st.viteConfigRoot
      ++ "\";\n        \t\t", ?_⟩
  simp only [genSource, String.append_assoc]
  rfl

/-- The generated source contains the `pluginNames` export line with the
rendered quoted-name array spliced in. -/
theorem gen_contains_pluginNames (st : PluginState) :
    ContainsSub (genSource st)
      ("export const pluginNames = [" ++ pluginsString st.pluginNames ++ "];") := by
  refine ⟨"\n\t\t\t\t\texport const getTimestamp = () => new Date().toISOString();\n\t\t\t\t\texport const buildTime = \""
      ++ st.buildTime
      ++ "\";\n\t\t\t\t\t",
    "\n\t\t\t\t\texport const viteMode = \""
      ++ st.viteMode
      ++ "\";\n\t\t\t\t\texport const viteCommand = \""
      ++ st.viteCommand
      ++ "\";\n\t\t\t\t\texport const viteConfigRoot = \""
      ++ st.viteConfigRoot
      ++ "\";\n        \t\t", ?_⟩
  simp only [genSource, String.append_assoc]
  rfl

/-- The generated source contains the `viteMode` export line with the
state's `viteMode` value spliced in. -/
theorem gen_contains_viteMode (st : PluginState) :
    ContainsSub (genSource st)
      ("export const viteMode = \"" ++ st.viteMode ++ "\";") := by
  refine ⟨"\n\t\t\t\t\texport const getTimestamp = () => new Date().toISOString();\n\t\t\t\t\texport const buildTime = \""
      ++ st.buildTime
      ++ "\";\n\t\t\t\t\texport const pluginNames = ["
      ++ pluginsString st.pluginNames
      ++ "];\n\t\t\t\t\t",
    "\n\t\t\t\t\texport const viteCommand = \""
      ++ st.viteCommand
      ++ "\";\n\t\t\t\t\texport const viteConfigRoot = \""
      ++ st.viteConfigRoot
      ++ "\";\n        \t\t", ?_⟩
  simp only [genSource, String.append_assoc]
  rfl

/-- The generated source contains the `viteCommand` export line with the
state's `viteCommand` value spliced in. -/
theorem gen_contains_viteCommand (st : PluginState) :
    ContainsSub (genSource st)
      ("export const viteCommand = \"" ++ st.viteCommand ++ "\";") := by
  refine ⟨"\n\t\t\t\t\texport const getTimestamp = () => new Date().toISOString();\n\t\t\t\t\texport const buildTime = \""
      ++ st.buildTime
      ++ "\";\n\t\t\t\t\texport const pluginNames = ["
      ++ pluginsString st.pluginNames
      ++ "];\n\t\t\t\t\texport const viteMode = \""
      ++ st.viteMode
      ++ "\";\n\t\t\t\t\t",
    "\n\t\t\t\t\texport const viteConfigRoot = \""
      ++ st.viteConfigRoot
      ++ "\";\n        \t\t", ?_⟩
  simp only [genSource, String.append_assoc]
  rfl

/-- The generated source contains the `viteConfigRoot` export line with the
state's `viteConfigRoot` value spliced in. -/
theorem gen_contains_viteConfigRoot (st : PluginState) :
    ContainsSub (genSource st)
      ("export const viteConfigRoot = \"" ++ st.viteConfigRoot ++ "\";") := by
  refine ⟨"\n\t\t\t\t\texport const getTimestamp = () => new Date().toISOString();\n\t\t\t\t\texport const buildTime = \""
      ++ st.buildTime
      ++ "\";\n\t\t\t\t\texport const pluginNames = ["
      ++ pluginsString st.pluginNames
      ++ "];\n\t\t\t\t\texport const viteMode = \""
      ++ st.viteMode
      ++ "\";\n\t\t\t\t\texport const viteCommand = \""
      ++ st.viteCommand
      ++ "\";\n\t\t\t\t\t",
    "\n        \t\t", ?_⟩
  simp only [genSource, String.append_assoc]
  rfl

/-- No hook ever writes `buildTime`. -/
theorem applyHook_buildTime (st : PluginState) (h : HookCall) :
    (applyHook st h).buildTime = st.buildTime := by
  cases h <;> rfl

/-- No hook sequence ever changes `buildTime`. -/
theorem applyHooks_buildTime (hs : List HookCall) :
    ∀ st : PluginState, (applyHooks st hs).buildTime = st.buildTime := by
  induction hs with
  | nil => intro st; rfl
  | cons h t ih =>
      intro st
      have e : applyHooks st (h :: t) = applyHooks (applyHook st h) t := rfl
      rw [e, ih, applyHook_buildTime]

/-- Every hook other than `configResolved` preserves the four descriptor
fields. -/
theorem applyHook_descriptors (st : PluginState) (h : HookCall)
    (hnc : isConfigResolvedCall h = false) :
    (applyHook st h).pluginNames = st.pluginNames ∧
    (applyHook st h).viteMode = st.viteMode ∧
    (applyHook st h).viteCommand = st.viteCommand ∧
    (applyHook st h).viteConfigRoot = st.viteConfigRoot := by
  cases h <;> first
    | exact ⟨rfl, rfl, rfl, rfl⟩
    | simp [isConfigResolvedCall] at hnc

/-- A hook sequence with no `configResolved` call preserves the four
descriptor fields. -/
theorem applyHooks_descriptors (hs : List HookCall)
    (hall : hs.all (fun h => !isConfigResolvedCall h) = true) :
    ∀ st : PluginState,
      (applyHooks st hs).pluginNames = st.pluginNames ∧
      (applyHooks st hs).viteMode = st.viteMode ∧
      (applyHooks st hs).viteCommand = st.viteCommand ∧
      (applyHooks st hs).viteConfigRoot = st.viteConfigRoot := by
  induction hs with
  | nil => intro st; exact ⟨rfl, rfl, rfl, rfl⟩
  | cons h t ih =>
      intro st
      rw [List.all_cons, Bool.and_eq_true] at hall
      have hd := applyHook_descriptors st h (by simpa using hall.1)
      have ht := ih hall.2 (applyHook st h)
      have e : applyHooks st (h :: t) = applyHooks (applyHook st h) t := rfl
      rw [e]
      exact ⟨ht.1.trans hd.1, ht.2.1.trans hd.2.1,
        ht.2.2.1.trans hd.2.2.1, ht.2.2.2.trans hd.2.2.2⟩

/-- Claim C1: `resolveId` returns the null-byte-prefixed reserved identifier
exactly on the literal `virtual:vite-info`, returns `null` on every other
source, is deterministic (same input, same output, independent of the plugin
state), and the reserved identifier differs from every string free of the
null-byte sentinel, hence from any real file path. -/
theorem resolveId_spec (st st2 : PluginState) (source : String) :
    (source = virtualModuleId →
      (resolveId st source).2 = some resolvedVirtualModuleId) ∧
    (source ≠ virtualModuleId → (resolveId st source).2 = none) ∧
    (resolveId st source).2 = (resolveId st2 source).2 ∧
    (∀ path : String, Char.ofNat 0 ∉ path.data → resolvedVirtualModuleId ≠ path) := by
  refine ⟨fun h => by simp [resolveId, h], fun h => by simp [resolveId, h], rfl,
    fun path hp heq => hp ?_⟩
  rw [← heq]
  decide

/-- Witness for C1 at concrete inputs. -/
theorem resolveId_spec_witness :
    (resolveId (initialState "B") "virtual:vite-info").2 = some resolvedVirtualModuleId ∧
    (resolveId (initialState "B") "src/app.ts").2 = none ∧
    resolvedVirtualModuleId ≠ "src/app.ts" := by
  refine ⟨(resolveId_spec (initialState "B") (initialState "B") "virtual:vite-info").1 rfl,
    (resolveId_spec (initialState "B") (initialState "B") "src/app.ts").2.1 (by decide),
    (resolveId_spec (initialState "B") (initialState "B") "x").2.2.2 "src/app.ts" (by decide)⟩

/-- Claim C3 counterexample: with prior `isDev = true`, the unrecognized
command `"watch"` does not leave `isDev` at its prior value — `config` sets
`isDev` to `false`. -/
theorem config_counterexample :
    ({ initialState "B" with isDev := true } : PluginState).isDev = true ∧
    (config { initialState "B" with isDev := true } "watch").isDev = false :=
  ⟨rfl, rfl⟩

/-- Claim C3 (amended): `config` sets `isDev` to true exactly when the
command is `"serve"`; it is idempotent (running it twice on the same input
equals running it once) and never crashes; and for every command other than
`"serve"` — including unrecognized values — it sets `isDev` to `false`
rather than preserving the prior value. -/
theorem config_spec (st : PluginState) (command : String) :
    ((config st command).isDev = true ↔ command = "serve") ∧
    config (config st command) command = config st command ∧
    (command ≠ "serve" → (config st command).isDev = false) := by
  refine ⟨?_, rfl, fun h => ?_⟩
  · simp [config]
  · simp [config, h]

/-- Witness for C3 (amended) at concrete inputs. -/
theorem config_spec_witness :
    (config (initialState "B") "serve").isDev = true ∧
    (config (initialState "B") "watch").isDev = false ∧
    config (config (initialState "B") "build") "build"
      = config (initialState "B") "build" := by
  refine ⟨(config_spec (initialState "B") "serve").1.mpr rfl,
    (config_spec (initialState "B") "watch").2.2 (by decide),
    (config_spec (initialState "B") "build").2.1⟩

/-- Claim C2: on the reserved resolved identifier, `load` returns the
generated source, whose `pluginNames` export renders the state's names as a
literal array of single-quoted strings and whose `buildTime`, `viteMode`,
`viteCommand` and `viteConfigRoot` exports splice in the state's values
exactly; on every other id, `load` returns `null`. -/
theorem load_spec (st : PluginState) (id : String) :
    (id = resolvedVirtualModuleId →
      (load st id).2 = some (genSource st) ∧
      ContainsSub (genSource st)
        ("export const pluginNames = [" ++ pluginsString st.pluginNames ++ "];") ∧
      ContainsSub (genSource st)
        ("export const buildTime = \"" ++ st.buildTime ++ "\";") ∧
      ContainsSub (genSource st)
        ("export const viteMode = \"" ++ st.viteMode ++ "\";") ∧
      ContainsSub (genSource st)
        ("export const viteCommand = \"" ++ st.viteCommand ++ "\";") ∧
      ContainsSub (genSource st)
        ("export const viteConfigRoot = \"" ++ st.viteConfigRoot ++ "\";")) ∧
    (id ≠ resolvedVirtualModuleId → (load st id).2 = none) := by
  refine ⟨fun h => ⟨by simp [load, h], gen_contains_pluginNames st,
    gen_contains_buildTime st, gen_contains_viteMode st,
    gen_contains_viteCommand st, gen_contains_viteConfigRoot st⟩,
    fun h => by simp [load, h]⟩

/-- The example state of the spec: two plugins named `a` and `b`, mode
`development`, command `serve`, root `/proj`. -/
def exampleState : PluginState :=
  { isDev := true
    pluginNames := ["a", "b"]
    viteMode := "development"
    viteCommand := "serve"
    viteConfigRoot := "/proj"
    buildTime := "2024-05-01T12:00:00.000Z" }

/-- Witness for C2 at the spec's example state. -/
theorem load_spec_witness :
    (load exampleState resolvedVirtualModuleId).2 = some (genSource exampleState) ∧
    ContainsSub (genSource exampleState)
      "export const pluginNames = [\x27a\x27,\x27b\x27];" ∧
    ContainsSub (genSource exampleState) "export const viteMode = \"development\";" ∧
    ContainsSub (genSource exampleState) "export const viteCommand = \"serve\";" ∧
    ContainsSub (genSource exampleState) "export const viteConfigRoot = \"/proj\";" ∧
    ContainsSub (genSource exampleState)
      "export const buildTime = \"2024-05-01T12:00:00.000Z\";" ∧
    (load exampleState "src/foo.ts").2 = none := by
  have h := (load_spec exampleState resolvedVirtualModuleId).1 rfl
  exact ⟨h.1, h.2.1, h.2.2.2.1, h.2.2.2.2.1, h.2.2.2.2.2, h.2.2.1,
    (load_spec exampleState "src/foo.ts").2 (by decide)⟩

/-- Claim C4: with `isDev` false, `transform` returns `null`; with `isDev`
true on an id ending in `.js` or `.ts`, it returns exactly the original code
followed by one appended trailing comment line carrying the timestamp, and
that comment line contains no further newline when the timestamp has none
(append-only, single line). -/
theorem transform_spec (st : PluginState) (code id ts : String) :
    (st.isDev = false → (transform st code id ts).2 = none) ∧
    (st.isDev = true → isJsOrTs id = true →
      (transform st code id ts).2 = some (code ++ markerLine ts) ∧
      markerLine ts = "\n" ++ ("// Last updated: " ++ ts) ∧
      (Char.ofNat 10 ∉ ts.data →
        ∀ c ∈ ("// Last updated: " ++ ts).data, c ≠ Char.ofNat 10)) := by
  refine ⟨fun h => by simp [transform, h],
    fun hdev hid => ⟨by simp [transform, hdev, hid], rfl, fun hn c hc => ?_⟩⟩
  rw [String.data_append] at hc
  have hlit : ∀ c ∈ ("// Last updated: " : String).data, c ≠ Char.ofNat 10 := by
    decide
  rcases List.mem_append.mp hc with h1 | h2
  · exact hlit c h1
  · exact fun he => hn (he ▸ h2)

/-- Witness for C4 at concrete inputs. -/
theorem transform_spec_witness :
    (transform (initialState "B") "const x = 1;" "foo.ts" "TS").2 = none ∧
    (transform { initialState "B" with isDev := true } "const x = 1;" "foo.ts"
        "2024-05-01T12:00:00.000Z").2
      = some ("const x = 1;" ++ markerLine "2024-05-01T12:00:00.000Z") ∧
    (∀ c ∈ ("// Last updated: " ++ "2024-05-01T12:00:00.000Z").data,
      c ≠ Char.ofNat 10) := by
  refine ⟨(transform_spec (initialState "B") "const x = 1;" "foo.ts" "TS").1 rfl,
    ((transform_spec { initialState "B" with isDev := true } "const x = 1;" "foo.ts"
      "2024-05-01T12:00:00.000Z").2 rfl (by decide)).1,
    ((transform_spec { initialState "B" with isDev := true } "const x = 1;" "foo.ts"
      "2024-05-01T12:00:00.000Z").2 rfl (by decide)).2.2 (by decide)⟩

/-- Claim C5: with `isDev` true, transforming the output of a first
transform of a `.js`/`.ts` id appends a second marker line instead of
deduplicating, so the result carries two trailing marker lines and differs
from the once-transformed text — `transform` is not idempotent. -/
theorem transform_not_idempotent (st : PluginState) (code id ts1 ts2 : String)
    (hdev : st.isDev = true) (hid : isJsOrTs id = true) :
    (transform st code id ts1).2 = some (code ++ markerLine ts1) ∧
    (transform st (code ++ markerLine ts1) id ts2).2
      = some ((code ++ markerLine ts1) ++ markerLine ts2) ∧
    (code ++ markerLine ts1) ++ markerLine ts2 ≠ code ++ markerLine ts1 := by
  refine ⟨by simp [transform, hdev, hid], by simp [transform, hdev, hid],
    fun he => ?_⟩
  have hl := congrArg String.length he
  have h18 : ("\n// Last updated: " : String).length = 18 := rfl
  simp only [String.length_append, markerLine, h18] at hl
  omega

/-- Witness for C5 at concrete inputs. -/
theorem transform_not_idempotent_witness :
    (transform { initialState "B" with isDev := true } "const x = 1;" "foo.ts" "T1").2
      = some ("const x = 1;" ++ markerLine "T1") ∧
    (transform { initialState "B" with isDev := true }
        ("const x = 1;" ++ markerLine "T1") "foo.ts" "T2").2
      = some (("const x = 1;" ++ markerLine "T1") ++ markerLine "T2") ∧
    ("const x = 1;" ++ markerLine "T1") ++ markerLine "T2"
      ≠ "const x = 1;" ++ markerLine "T1" :=
  transform_not_idempotent { initialState "B" with isDev := true }
    "const x = 1;" "foo.ts" "T1" "T2" rfl (by decide)

/-- Claim C6: `buildTime` is fixed at plugin construction — no hook sequence
changes it, any two hook sequences leave the same `buildTime`, and every
load of the virtual module embeds that same `buildTime` value in the
generated source's `buildTime` export line. -/
theorem buildTime_fixed (st : PluginState) (hs1 hs2 : List HookCall) :
    (applyHooks st hs1).buildTime = st.buildTime ∧
    (applyHooks st hs1).buildTime = (applyHooks st hs2).buildTime ∧
    (load (applyHooks st hs1) resolvedVirtualModuleId).2
      = some (genSource (applyHooks st hs1)) ∧
    ContainsSub (genSource (applyHooks st hs1))
      ("export const buildTime = \"" ++ st.buildTime ++ "\";") := by
  have h1 := applyHooks_buildTime hs1 st
  have h2 := applyHooks_buildTime hs2 st
  refine ⟨h1, h1.trans h2.symm, by simp [load], ?_⟩
  have hg := gen_contains_buildTime (applyHooks st hs1)
  rwa [h1] at hg

/-- Claim C7: loading the virtual module before any `configResolved` call
does not raise: from the construction state, after any hook sequence free of
`configResolved`, `load` on the reserved id returns generated source with
the default metadata — empty array `[]` and empty strings for mode, command
and root. -/
theorem load_before_configResolved (bt : String) (hs : List HookCall)
    (hall : hs.all (fun h => !isConfigResolvedCall h) = true) :
    (load (applyHooks (initialState bt) hs) resolvedVirtualModuleId).2
      = some (genSource (applyHooks (initialState bt) hs)) ∧
    ContainsSub (genSource (applyHooks (initialState bt) hs))
      "export const pluginNames = [];" ∧
    ContainsSub (genSource (applyHooks (initialState bt) hs))
      "export const viteMode = \"\";" ∧
    ContainsSub (genSource (applyHooks (initialState bt) hs))
      "export const viteCommand = \"\";" ∧
    ContainsSub (genSource (applyHooks (initialState bt) hs))
      "export const viteConfigRoot = \"\";" := by
  obtain ⟨hp, hm, hc, hr⟩ := applyHooks_descriptors hs hall (initialState bt)
  refine ⟨by simp [load], ?_, ?_, ?_, ?_⟩
  · have hg := gen_contains_pluginNames (applyHooks (initialState bt) hs)
    rw [hp] at hg
    exact hg
  · have hg := gen_contains_viteMode (applyHooks (initialState bt) hs)
    rw [hm] at hg
    exact hg
  · have hg := gen_contains_viteCommand (applyHooks (initialState bt) hs)
    rw [hc] at hg
    exact hg
  · have hg := gen_contains_viteConfigRoot (applyHooks (initialState bt) hs)
    rw [hr] at hg
    exact hg

/-- Witness for C7 with a concrete `configResolved`-free hook sequence. -/
theorem load_before_configResolved_witness :
    (load (applyHooks (initialState "B") [HookCall.config "serve"])
        resolvedVirtualModuleId).2
      = some (genSource (applyHooks (initialState "B") [HookCall.config "serve"])) ∧
    ContainsSub (genSource (applyHooks (initialState "B") [HookCall.config "serve"]))
      "export const pluginNames = [];" ∧
    ContainsSub (genSource (applyHooks (initialState "B") [HookCall.config "serve"]))
      "export const viteMode = \"\";" ∧
    ContainsSub (genSource (applyHooks (initialState "B") [HookCall.config "serve"]))
      "export const viteCommand = \"\";" ∧
    ContainsSub (genSource (applyHooks (initialState "B") [HookCall.config "serve"]))
      "export const viteConfigRoot = \"\";" :=
  load_before_configResolved "B" [HookCall.config "serve"] (by decide)

/-- Claim C8: `watchChange` emits nothing when `isDev` is false, and exactly
one log line when `isDev` is true; that line contains the timestamp, the
change's event string and the id as substrings. -/
theorem watchChange_spec (st : PluginState) (id event ts : String) :
    (st.isDev = false → (watchChange st id event ts).2 = []) ∧
    (st.isDev = true →
      (watchChange st id event ts).2.length = 1 ∧
      ∃ line, (watchChange st id event ts).2 = [line] ∧
        ContainsSub line ts ∧ ContainsSub line event ∧ ContainsSub line id) := by
  refine ⟨fun h => by simp [watchChange, h], fun h => ?_⟩
  have hline : (watchChange st id event ts).2
      = ["[" ++ ts ++ "] File " ++ event ++ ": " ++ id] := by
    simp [watchChange, h]
  refine ⟨by rw [hline]; rfl, "[" ++ ts ++ "] File " ++ event ++ ": " ++ id, hline,
    ⟨"[", "] File " ++ event ++ ": " ++ id, by simp only [String.append_assoc]⟩,
    ⟨"[" ++ ts ++ "] File ", ": " ++ id, by simp only [String.append_assoc]⟩,
    ⟨"[" ++ ts ++ "] File " ++ event ++ ": ", "",
      by simp only [String.append_assoc, String.append_empty]⟩⟩

/-- Witness for C8 at concrete inputs. -/
theorem watchChange_spec_witness :
    (watchChange (initialState "B") "foo.ts" "update" "TS").2 = [] ∧
    (watchChange { initialState "B" with isDev := true } "foo.ts" "update" "TS").2.length
      = 1 :=
  ⟨(watchChange_spec (initialState "B") "foo.ts" "update" "TS").1 rfl,
    ((watchChange_spec { initialState "B" with isDev := true } "foo.ts" "update"
      "TS").2 rfl).1⟩

/-- Claim C9: `handleHotUpdate` logs exactly one line containing the changed
file path on every invocation, and its output is identical across any two
plugin states — in particular across two runs differing only in `isDev` —
because the handler body reads no state and has no dev-mode guard. -/
theorem handleHotUpdate_spec (st1 st2 : PluginState) (file : String) :
    (handleHotUpdate st1 file).2 = (handleHotUpdate st2 file).2 ∧
    (handleHotUpdate st1 file).2.length = 1 ∧
    ∃ line, (handleHotUpdate st1 file).2 = [line] ∧ ContainsSub line file := by
  refine ⟨rfl, rfl, "[HMR] Reloading due to file change: " ++ file, rfl,
    ⟨"[HMR] Reloading due to file change: ", "", ?_⟩⟩
  rw [String.append_empty]

/-- Claim C10: frame conditions — `config` writes only `isDev`;
`configResolved` writes only the four descriptor fields, leaving `isDev` and
`buildTime` alone; `resolveId`, `load`, `transform` and `watchChange` return
the state they were given, unchanged in every field. -/
theorem frame_conditions (st : PluginState) (cmd : String) (cfg : ResolvedConfig)
    (source id code ts event : String) :
    (config st cmd).pluginNames = st.pluginNames ∧
    (config st cmd).viteMode = st.viteMode ∧
    (config st cmd).viteCommand = st.viteCommand ∧
    (config st cmd).viteConfigRoot = st.viteConfigRoot ∧
    (config st cmd).buildTime = st.buildTime ∧
    (configResolved st cfg).isDev = st.isDev ∧
    (configResolved st cfg).buildTime = st.buildTime ∧
    (resolveId st source).1 = st ∧
    (load st id).1 = st ∧
    (transform st code id ts).1 = st ∧
    (watchChange st id event ts).1 = st :=
  ⟨rfl, rfl, rfl, rfl, rfl, rfl, rfl, rfl, rfl, rfl, rfl⟩

end QwikLogger
